import Mathlib

/-!
Shallow embedding of parts of the pyaerocom repository
(TrellixVulnTeam/pyaerocom_VTPZ): `pyaerocom/stationdata.py` (StationData
merge logic) and `pyaerocom/aeroval/experiment_setup.py` (ExperimentSetup
configuration handling, super-observation merge, menu rebuild), together
with theorems checking the natural-language specification against the code.

Conventions of the embedding:
 - Python dicts are association lists `List (String × α)` in insertion
   order; updates replace in place, inserts append (Python 3.7+ semantics).
 - Python exceptions are `Except PyErr α`; each raise site maps to one
   `PyErr` constructor.
 - Python numbers are `Rat`; pandas timestamps are `Nat`; a pandas series
   cell that is NaN is `Option.none`.
-/

namespace PyA

/-- Exception classes raised by the embedded code. -/
inductive PyErr where
  | valueError
  | metaDataError
  | varNotAvailableError
  | keyError
  | typeError
  | notImplementedError
  | attributeError
  | ioError
  | nameError
  | fileConventionError
  | fileNotFoundError
  | assertionError
  | indexError
  deriving Repr, DecidableEq

/-- Python dict lookup over an association list. -/
def alookup (l : List (String × α)) (k : String) : Option α :=
  match l with
  | [] => none
  | (k2, v) :: t => if k2 = k then some v else alookup t k

/-- Python dict assignment `d[k] = v`: replaces the first binding in place,
appends when the key is absent (dicts keep insertion order). -/
def aupdate (l : List (String × α)) (k : String) (v : α) : List (String × α) :=
  match l with
  | [] => [(k, v)]
  | (k2, v2) :: t => if k2 = k then (k2, v) :: t else (k2, v2) :: aupdate t k v

/-- Scalar Python values stored in StationData metadata: `None`, strings,
numbers (floats/ints as rationals) and booleans. -/
inductive SVal where
  | snone
  | sstr (s : String)
  | snum (q : Rat)
  | sbool (b : Bool)
  deriving Repr, DecidableEq

/-- Values stored in StationData metadata and `var_info` dicts: scalars or
lists of scalars.  The merge code never constructs nested lists (appending
a list value raises `ValueError`), so flat lists suffice for the
embedding. -/
inductive MVal where
  | mnone
  | mstr (s : String)
  | mnum (q : Rat)
  | mbool (b : Bool)
  | mlist (xs : List SVal)
  deriving Repr, DecidableEq

/-- The scalar seen as a list element. -/
def MVal.toScalar : MVal → SVal
  | .mnone => .snone
  | .mstr s => .sstr s
  | .mnum q => .snum q
  | .mbool b => .sbool b
  | .mlist _ => .snone

/-- Python truthiness of an `MVal` (used for `if info['overlap']:`). -/
def MVal.truthy : MVal → Bool
  | .mnone => false
  | .mstr s => decide (s ≠ "")
  | .mnum q => decide (q ≠ 0)
  | .mbool b => b
  | .mlist xs => decide (xs ≠ [])

/-! ### Python string primitives (over `List Char`) -/

/-- Python `str.split(c)` for a one-character separator: always returns at
least one (possibly empty) part. -/
def pySplitCh (c : Char) : List Char → List (List Char)
  | [] => [[]]
  | a :: t =>
    if a = c then [] :: pySplitCh c t
    else
      match pySplitCh c t with
      | [] => [[a]]
      | p :: ps => (a :: p) :: ps

/-- Python `str.join` over a one-character separator. -/
def pyJoinCh (c : Char) : List (List Char) → List Char
  | [] => []
  | [p] => p
  | p :: ps => p ++ c :: pyJoinCh c ps

/-- ASCII whitespace, for `str.strip()`. -/
def isSpaceCh (a : Char) : Bool :=
  a = ' ' || a = '\t' || a = '\n' || a = '\r'

/-- Python `str.strip()`. -/
def stripCh (l : List Char) : List Char :=
  ((l.dropWhile isSpaceCh).reverse.dropWhile isSpaceCh).reverse

/-- The `;`-separated string merge used by both
`StationData._append_meta_item` and `StationData.merge_varinfo`
(stationdata.py lines 225-230 and 337-342): split both strings on `;`,
strip the tokens, and append to `cur` every incoming (stripped) token that
is not among `cur`'s tokens.  The membership list `vals` is computed once
from the original value, exactly as in the source. -/
def merge_str_meta (cur new : String) : String :=
  let vals := (pySplitCh ';' cur.data).map stripCh
  let valsIn := (pySplitCh ';' new.data).map stripCh
  String.mk
    (valsIn.foldl (fun acc v => if v ∈ vals then acc else acc ++ ';' :: v)
      cur.data)

/-- `StationData._append_meta_item` (stationdata.py lines 216-242) acting on
one metadata dict.  `self[key]` of the source is `alookup meta key`; a key
that is missing or bound to `None` is overwritten, a string is merged with
the `;` rule, a list value raises `ValueError`, a scalar is appended to a
list binding or paired into a 2-element list when it disagrees. -/
def append_meta_item (meta : List (String × MVal)) (key : String) (val : MVal) :
    Except PyErr (List (String × MVal)) :=
  match alookup meta key with
  | none => .ok (aupdate meta key val)
  | some .mnone => .ok (aupdate meta key val)
  | some cur =>
    match cur, val with
    | .mstr s, .mstr v => .ok (aupdate meta key (.mstr (merge_str_meta s v)))
    | .mstr _, _ => .error .valueError
    | _, .mlist _ => .error .valueError
    | .mlist xs, v =>
      if v.toScalar ∈ xs then .ok meta
      else .ok (aupdate meta key (.mlist (xs ++ [v.toScalar])))
    | c, v =>
      if c = v then .ok meta
      else .ok (aupdate meta key (.mlist [c.toScalar, v.toScalar]))

/-- One step of the `StationData.merge_varinfo` loop (stationdata.py lines
329-359) merging one `(key, val)` item of `other.var_info[var]` into
`info_this`.  Note the source's list-valued branch: an empty incoming list
is skipped, an equal list is skipped, and every other list-valued item
falls through to `raise ValueError` (the assignment on line 350 is
immediately followed by the raise, so it is never observable through a
successful merge). -/
def merge_varinfo_item (infoThis : List (String × MVal)) (key : String) (val : MVal) :
    Except PyErr (List (String × MVal)) :=
  match alookup infoThis key with
  | none => .ok (aupdate infoThis key val)
  | some .mnone => .ok (aupdate infoThis key val)
  | some cur =>
    match cur, val with
    | .mstr s, .mstr v => .ok (aupdate infoThis key (.mstr (merge_str_meta s v)))
    | .mstr _, _ => .error .valueError
    | c, .mlist vs =>
      if vs = [] then .ok infoThis
      else
        match c with
        | .mlist cs => if cs = vs then .ok infoThis else .error .valueError
        | _ => .error .valueError
    | .mlist xs, v =>
      if v.toScalar ∈ xs then .ok infoThis
      else .ok (aupdate infoThis key (.mlist (xs ++ [v.toScalar])))
    | c, v =>
      if c = v then .ok infoThis
      else .ok (aupdate infoThis key (.mlist [c.toScalar, v.toScalar]))

/-- Folds `merge_varinfo_item` over the items of `infoOther` in order
(the `for key, val in info_other.items()` loop of `merge_varinfo`). -/
def merge_varinfo_dict (infoThis infoOther : List (String × MVal)) :
    Except PyErr (List (String × MVal)) :=
  match infoOther with
  | [] => .ok infoThis
  | (k, v) :: t => do
    let acc ← merge_varinfo_item infoThis k v
    merge_varinfo_dict acc t

/-! ### pandas series -/

/-- A raw pandas series indexed by timestamps; a `none` cell is NaN. -/
abbrev RawSeries := List (Nat × Option Rat)

/-- A series with the NaNs removed. -/
abbrev Series := List (Nat × Rat)

/-- `series.dropna()`. -/
def dropna (s : RawSeries) : Series :=
  s.filterMap (fun p => p.2.map (fun v => (p.1, v)))

/-- `s0.index.intersection(s1.index)`: the timestamps of `s0` that also
occur in `s1`. -/
def index_intersection (s0 s1 : Series) : List Nat :=
  (s0.map Prod.fst).filter (fun t => (s1.map Prod.fst).contains t)

/-- `s1[overlap]`: the rows of `s1` at the given timestamps, in the order
of the index list. -/
def series_select (s : Series) (idx : List Nat) : Series :=
  idx.filterMap (fun t => s.find? (fun p => p.1 == t))

/-- True when the series has two rows with the same timestamp (what
`pd.concat(..., verify_integrity=True)` rejects). -/
def has_dup_index (s : Series) : Bool :=
  decide (¬ (s.map Prod.fst).Nodup)

/-- Insert one row into a series that is sorted by timestamp. -/
def insert_by_time (p : Nat × Rat) : Series → Series
  | [] => [p]
  | q :: t => if p.1 < q.1 then p :: q :: t else q :: insert_by_time p t

/-- `series.sort_index()`: sort the rows by timestamp. -/
def sort_index (s : Series) : Series :=
  s.foldr insert_by_time []

/-- Store a NaN-free series back as a raw series. -/
def to_raw (s : Series) : RawSeries :=
  s.map (fun p => (p.1, some p.2))

/-! ### StationData -/

/-- `StationData` (stationdata.py): one observational station.  The Python
object is one flat dict; the embedding partitions it into the coordinate
fields, the remaining metadata items, the per-variable series (`data`),
`var_info` and `overlap`. -/
structure StationData where
  station_name : String
  latitude : MVal
  longitude : MVal
  altitude : MVal
  meta : List (String × MVal)
  dtime : List Nat
  data : List (String × RawSeries)
  var_info : List (String × List (String × MVal))
  overlap : List (String × Series)
  deriving Repr, DecidableEq

/-- `StationData.merge_varinfo` (stationdata.py lines 312-360): merge the
`var_info` entry for `var` of `other` into `self`. -/
def merge_varinfo (self other : StationData) (var : String) :
    Except PyErr StationData :=
  match alookup self.var_info var with
  | none => .error .keyError
  | some infoThis =>
    match alookup other.var_info var with
    | none => .error .keyError
    | some infoOther => do
      let merged ← merge_varinfo_dict infoThis infoOther
      .ok { self with var_info := aupdate self.var_info var merged }

/-- `StationData.merge_vardata` (stationdata.py lines 372-449): merge the
series for `var` of `other` into `self`.  The `isinstance(..., pd.Series)`
checks of the source always pass here because variable data is typed as a
series in the embedding. -/
def merge_vardata (self other : StationData) (var : String) :
    Except PyErr StationData :=
  match alookup self.data var, alookup other.data var with
  | none, _ => .error .varNotAvailableError
  | some _, none => .error .varNotAvailableError
  | some selfRaw, some otherRaw =>
    match alookup self.var_info var, alookup other.var_info var with
    | none, _ => .error .metaDataError
    | some _, none => .error .metaDataError
    | some _, some info =>
      let s0 := dropna selfRaw
      let s1 := dropna otherRaw
      match alookup info "overlap" with
      | none => .error .keyError
      | some ov =>
        if ov.truthy then .error .notImplementedError
        else
          if s1.length > 0 then
            let overlap := index_intersection s0 s1
            if overlap.length > 0 then
              -- removed = s1[overlap]
              -- s1 = s1.drop(index=overlap, inplace=True)
              -- pandas `Series.drop` with `inplace=True` returns None, so
              -- the local s1 is rebound to None, and the subsequent
              -- pd.concat([s0, None], verify_integrity=True) raises
              -- TypeError (None is not a Series/DataFrame).  The
              -- overlap-stashing code below the concat is unreachable.
              .error .typeError
            else
              let cat := s0 ++ s1
              if has_dup_index cat then .error .valueError
              else do
                let s0s := sort_index cat
                let selfA ← merge_varinfo self other var
                .ok { selfA with data := aupdate selfA.data var (to_raw s0s) }
          else
            -- len(s1) == 0: self[var_name] = s0 (the NaN-dropped series)
            .ok { self with data := aupdate self.data var (to_raw s0) }

/-- One coordinate value in `StationData.get_station_coords`
(stationdata.py lines 120-144).  A float or int is taken as is (a Python
bool is an int); a list is collapsed to its mean.  The source then runs
`std = np.std(val)` on the already-collapsed scalar mean, which is always
0.0, so `_check_var` is never set and the `NotImplementedError` branch is
dead code. -/
def station_coord_val (v : MVal) : Except PyErr Rat :=
  match v with
  | .mnone => .error .metaDataError
  | .mnum q => .ok q
  | .mbool b => .ok (if b then 1 else 0)
  | .mstr _ => .error .attributeError
  | .mlist xs =>
    let nums := xs.filterMap (fun x =>
      match x with
      | .snum q => some q
      | .sbool b => some (if b then (1 : Rat) else 0)
      | _ => none)
    if nums.length = xs.length then
      -- np.mean of a numeric list (np.mean of an empty list is NaN; no
      -- claim exercises that corner)
      .ok ((nums.foldl (· + ·) 0) / nums.length)
    else .error .typeError

/-- `StationData.get_station_coords` (stationdata.py lines 94-167): a
missing / None coordinate raises `MetaDataError`. -/
def get_station_coords (s : StationData) : Except PyErr (Rat × Rat × Rat) := do
  let la ← station_coord_val s.latitude
  let lo ← station_coord_val s.longitude
  let al ← station_coord_val s.altitude
  .ok (la, lo, al)

/-- `StationData.same_coords` (stationdata.py lines 74-92) with
`dist_other` inlined (lines 52-72); `dist` stands for
`pyaerocom.geodesy.calc_distance` (not under src/), taking
(lat0, lon0, lat1, lon1, alt0, alt1).  Returns the boolean
`dist < tol_km`. -/
def same_coords (dist : Rat → Rat → Rat → Rat → Rat → Rat → Rat)
    (self other : StationData) (tolKm : Rat) : Except PyErr Bool := do
  let c0 ← get_station_coords self
  let c1 ← get_station_coords other
  .ok (decide (dist c0.1 c0.2.1 c1.1 c1.2.1 c0.2.2 c1.2.2 < tolKm))

/-- Process-wide class-level state of `StationData`: the mutable class
attribute `STANDARD_META_KEYS` (stationdata.py line 41). -/
structure StationClassState where
  standard_meta_keys : List String
  deriving Repr, DecidableEq

/-- The key list `merge_meta_same_station` iterates over:
`keys = self.STANDARD_META_KEYS; keys.extend(add_meta_keys)`.  Because
`keys` aliases the class attribute, the `extend` also mutates the class
attribute itself (captured by the returned `StationClassState` in
`merge_meta_same_station`). -/
def merge_keys (cls : StationClassState) (addMetaKeys : List String) :
    List String :=
  cls.standard_meta_keys ++ addMetaKeys

/-- Dict-style read of a StationData metadata key (coordinates are the
dedicated fields; everything else lives in `meta`). -/
def station_get (s : StationData) (key : String) : Option MVal :=
  if key = "latitude" then some s.latitude
  else if key = "longitude" then some s.longitude
  else if key = "altitude" then some s.altitude
  else alookup s.meta key

/-- Write one coordinate field. -/
def station_set_coord (s : StationData) (key : String) (v : MVal) :
    StationData :=
  if key = "latitude" then { s with latitude := v }
  else if key = "longitude" then { s with longitude := v }
  else { s with altitude := v }

/-- One iteration of the key loop in `merge_meta_same_station`
(stationdata.py lines 300-308): `station_name` is skipped, a coordinate
key is only filled in when missing on `self`, any other key present and
non-None on `other` is merged via `_append_meta_item`. -/
def merge_meta_step (other : StationData) (self : StationData) (key : String) :
    Except PyErr StationData :=
  if key = "station_name" then .ok self
  else if key = "latitude" ∨ key = "longitude" ∨ key = "altitude" then
    let sv := (station_get self key).getD .mnone
    let ov := (station_get other key).getD .mnone
    if sv = .mnone ∧ ov ≠ .mnone then .ok (station_set_coord self key ov)
    else .ok self
  else
    match alookup other.meta key with
    | none => .ok self
    | some .mnone => .ok self
    | some v => do
      let m ← append_meta_item self.meta key v
      .ok { self with meta := m }

/-- The key loop of `merge_meta_same_station`. -/
def merge_meta_fold (other : StationData) (self : StationData) :
    List String → Except PyErr StationData
  | [] => .ok self
  | k :: t => do
    let s2 ← merge_meta_step other self k
    merge_meta_fold other s2 t

/-- `StationData.merge_meta_same_station` (stationdata.py lines 244-310)
with `inplace=True` (the default used by `merge_other`).  Note the
coordinate check: the source calls `self.same_coords(other, coord_tol_km)`
inside `try: ... except MetaDataError: pass` and DISCARDS the returned
boolean, so a coordinate distance beyond the tolerance never raises; only
non-MetaDataError exceptions out of `same_coords` propagate.  The
class-level `STANDARD_META_KEYS` list is extended in place by
`add_meta_keys`; the updated class state is returned alongside the merged
object.  The coordinate-check step (lines 286-292) is split out below:
`same_coords` is called inside `try: ... except MetaDataError: pass` and
its boolean result is DISCARDED, so it only propagates
non-MetaDataError exceptions and never signals a too-large distance. -/
def merge_meta_coord_check (dist : Rat → Rat → Rat → Rat → Rat → Rat → Rat)
    (self other : StationData) (coordTolKm : Option Rat)
    (checkCoords : Bool) : Except PyErr Unit :=
  if checkCoords then
    match same_coords dist self other (coordTolKm.getD ((1 : Rat) / 10)) with
    | .ok _ => .ok ()
    | .error .metaDataError => .ok ()
    | .error e => .error e
  else .ok ()

/-- `StationData.merge_meta_same_station` body (see
`merge_meta_coord_check` above for the coordinate-check step). -/
def merge_meta_same_station
    (dist : Rat → Rat → Rat → Rat → Rat → Rat → Rat)
    (cls : StationClassState) (self other : StationData)
    (coordTolKm : Option Rat) (checkCoords : Bool)
    (addMetaKeys : List String) :
    Except PyErr (StationClassState × StationData) :=
  if ¬ (other.station_name = self.station_name) then .error .valueError
  else
    match merge_meta_coord_check dist self other coordTolKm checkCoords with
    | .error e => .error e
    | .ok _ =>
      match merge_meta_fold other self (merge_keys cls addMetaKeys) with
      | .error e => .error e
      | .ok obj =>
        .ok ({ standard_meta_keys := merge_keys cls addMetaKeys }, obj)

/-- The class state after `merge_meta_same_station` ran once on
`exClassState` with `add_meta_keys=["pi"]`. -/
def exClassStateAfter : StationClassState :=
  { standard_meta_keys :=
      ["station_name", "latitude", "longitude", "altitude", "instrument",
        "pi"] }

/-! ### Concrete StationData inputs used by the theorems -/

/-- A station with one `od550aer` sample at timestamp 1. -/
def exStation : StationData :=
  { station_name := "X", latitude := .mnum 0, longitude := .mnum 0,
    altitude := .mnum 0, meta := [("instrument", .mstr "sunphot")],
    dtime := [1], data := [("od550aer", [(1, some 10)])],
    var_info := [("od550aer", [("overlap", .mbool false)])], overlap := [] }

/-- The same station read from a second file, with a sample at the same
timestamp 1 (an overlapping sample) and latitude 50 instead of 0 (about
5500 km away). -/
def exStationFarOverlap : StationData :=
  { exStation with
    latitude := .mnum 50,
    data := [("od550aer", [(1, some 20)])] }

/-- Initial class-level state: the stock `STANDARD_META_KEYS`. -/
def exClassState : StationClassState :=
  { standard_meta_keys :=
      ["station_name", "latitude", "longitude", "altitude", "instrument"] }

/-! ### ExperimentSetup: values, name checks and `__setitem__`
(aeroval/experiment_setup.py) -/

/-- Python values held in `ExperimentSetup` attributes: `None`, strings,
numbers, booleans, lists, plain dicts, and the dict-like config classes
`ObsConfigEval` (tagged; its class body, obsconfigeval.py, is not under
src/), `ModelConfigEval` (modelentry.py) and `ColocationSetup`
(colocation_auto.py, not under src/). -/
inductive EVal where
  | enone
  | estr (s : String)
  | enum (q : Rat)
  | ebool (b : Bool)
  | elist (xs : List EVal)
  | edict (entries : List (String × EVal))
  | eObsCfg (entries : List (String × EVal))
  | eModelCfg (entries : List (String × EVal))
  | eColSetup (entries : List (String × EVal))

/-- The instance `__dict__` of an `ExperimentSetup`. -/
abbrev ESDict := List (String × EVal)

/-- Modelled from the spec: `ObsConfigEval(**v)` (obsconfigeval.py is not
under src/).  The spec describes it as a dict-like, eagerly validated
config container; the embedding tags the mapping's entries.  Calling it
with a non-mapping raises a TypeError.  (`__setitem__` discards the
conversion result anyway, see C9.) -/
def obs_config_eval (v : EVal) : Except PyErr EVal :=
  match v with
  | .edict ev => .ok (.eObsCfg ev)
  | .eObsCfg ev => .ok (.eObsCfg ev)
  | _ => .error .typeError

/-- `ModelConfigEval(**v)` (aeroval/modelentry.py): `model_id` is a
mandatory argument (TypeError when absent), defaults are set, the
remaining keyword arguments update them, and `check_cfg` asserts that
`model_id` is a str and that `model_use_vars` / `model_add_vars` /
`model_read_aux` are dicts (with str / list values respectively). -/
def model_config_eval (ev : List (String × EVal)) :
    Except PyErr EVal :=
  match alookup ev "model_id" with
  | none => .error .typeError
  | some mid =>
    let base : List (String × EVal) :=
      [("model_id", mid), ("model_ts_type_read", .enone),
        ("model_use_vars", .edict []), ("model_add_vars", .edict []),
        ("model_read_aux", .edict [])]
    let merged := ev.foldl (fun acc kv => aupdate acc kv.1 kv.2) base
    let ok1 := match alookup merged "model_id" with
               | some (.estr _) => true | _ => false
    let ok2 := match alookup merged "model_use_vars" with
               | some (.edict es) =>
                 es.all (fun kv => match kv.2 with
                                   | .estr _ => true | _ => false)
               | _ => false
    let ok3 := match alookup merged "model_add_vars" with
               | some (.edict es) =>
                 es.all (fun kv => match kv.2 with
                                   | .elist _ => true | _ => false)
               | _ => false
    let ok4 := match alookup merged "model_read_aux" with
               | some (.edict _) => true | _ => false
    if ok1 && ok2 && ok3 && ok4 then .ok (.eModelCfg merged)
    else .error .assertionError

/-- `ExperimentSetup._check_type_cfg_entry` for `ModelConfigEval`
(experiment_setup.py lines 580-584). -/
def check_type_model_cfg_entry (v : EVal) : Except PyErr EVal :=
  match v with
  | .eModelCfg ev => .ok (.eModelCfg ev)
  | .edict ev => model_config_eval ev
  | _ => .error .typeError

/-- Python `'_' in name` over a string. -/
def has_underscore (s : String) : Bool :=
  s.data.contains '_'

/-- One entry of the `_check_model_config` loop (experiment_setup.py lines
723-737).  NOTE the source's elif chain: a name of more than 25
characters also has more than 20, so it hits the `len > 20` warning
branch and the `len(mname) > 25 → ValueError` branch is unreachable. -/
def check_model_config_entry (mname : String) (cfg : EVal) :
    Except PyErr EVal :=
  if has_underscore mname then .error .attributeError
  else if mname.data.length > 20 then
    -- const.print_log.warning(...): no error
    (match cfg with
     | .eModelCfg ev => .ok (.eModelCfg ev)
     | v => check_type_model_cfg_entry v)
  else if mname.data.length > 25 then .error .valueError
  else
    (match cfg with
     | .eModelCfg ev => .ok (.eModelCfg ev)
     | v => check_type_model_cfg_entry v)

/-- `ExperimentSetup._check_model_config`: loop over the model_config
entries, re-storing converted entries. -/
def check_model_config : List (String × EVal) →
    Except PyErr (List (String × EVal))
  | [] => .ok []
  | (mname, cfg) :: t => do
    let cfg2 ← check_model_config_entry mname cfg
    let t2 ← check_model_config t
    .ok ((mname, cfg2) :: t2)

/-- Modelled from the spec: `ObsConfigEval` conversion used by
`_check_obs_config` (the class body is not under src/); see
`obs_config_eval`. -/
def check_obs_config_entry (oname : String) (cfg : EVal) :
    Except PyErr EVal :=
  if has_underscore oname then .error .attributeError
  else if oname.data.length > 20 then
    (match cfg with
     | .eObsCfg ev => .ok (.eObsCfg ev)
     | v => obs_config_eval v)
  else if oname.data.length > 25 then .error .valueError
  else
    (match cfg with
     | .eObsCfg ev => .ok (.eObsCfg ev)
     | v => obs_config_eval v)

/-- `ExperimentSetup._check_obs_config` (lines 739-753): same elif chain
as `_check_model_config`, so the `len > 25 → ValueError` branch is
unreachable here too. -/
def check_obs_config : List (String × EVal) →
    Except PyErr (List (String × EVal))
  | [] => .ok []
  | (oname, cfg) :: t => do
    let cfg2 ← check_obs_config_entry oname cfg
    let t2 ← check_obs_config t
    .ok ((oname, cfg2) :: t2)

/-- `.items()` of a Python mapping value (plain dicts and the dict-like
`BrowseDict` config classes). -/
def dict_items : EVal → Option (List (String × EVal))
  | .edict es => some es
  | .eObsCfg es => some es
  | .eModelCfg es => some es
  | .eColSetup es => some es
  | _ => none

/-- Rebuild a mapping value with new entries, keeping its class. -/
def rewrap_dict (orig : EVal) (es : List (String × EVal)) : EVal :=
  match orig with
  | .eObsCfg _ => .eObsCfg es
  | .eModelCfg _ => .eModelCfg es
  | .eColSetup _ => .eColSetup es
  | _ => .edict es

/-- The conversion loop of `_set_obsconfig` (lines 573-578):
`cfg[k] = ObsConfigEval(**v)` for every entry. -/
def set_obsconfig_entries : List (String × EVal) →
    Except PyErr (List (String × EVal))
  | [] => .ok []
  | (k, v) :: t => do
    let c ← obs_config_eval v
    let t2 ← set_obsconfig_entries t
    .ok ((k, c) :: t2)

/-- The conversion loop of `_set_modelconfig` (lines 586-601) via
`_check_type_cfg_entry`. -/
def set_modelconfig_entries : List (String × EVal) →
    Except PyErr (List (String × EVal))
  | [] => .ok []
  | (k, v) :: t => do
    let c ← check_type_model_cfg_entry v
    let t2 ← set_modelconfig_entries t
    .ok ((k, c) :: t2)

/-- `ExperimentSetup.get_custom_read_method_model` (lines 508-556) for
the default `add_methods_file=None`: a method name found in
`add_methods` is returned, otherwise the source raises ValueError
("Failed to access custom read method ..."); a configured
`add_methods_file` leads to a module import (I/O, outside the
embedding). -/
def get_custom_read_method_model (addMethods : List String)
    (name : String) : Except PyErr Unit :=
  if addMethods.contains name then .ok () else .error .valueError

/-- One `varcfg` check of `_update_custom_read_methods` (lines 491-506):
must be a dict with keys `vars_required` and `fun`, `fun` a str naming an
accessible method. -/
def check_read_aux_varcfg (addMethods : List String) (varcfg : EVal) :
    Except PyErr Unit :=
  match varcfg with
  | .edict es =>
    if (alookup es "vars_required").isSome && (alookup es "fun").isSome then
      match alookup es "fun" with
      | some (.estr name) => get_custom_read_method_model addMethods name
      | _ => .error .valueError
    else .error .valueError
  | _ => .error .valueError

/-- The `for varcfg in maux.values()` loop of
`_update_custom_read_methods`. -/
def check_read_aux_entries (addMethods : List String) :
    List (String × EVal) → Except PyErr Unit
  | [] => .ok ()
  | (_, varcfg) :: t => do
    let _ ← check_read_aux_varcfg addMethods varcfg
    check_read_aux_entries addMethods t

/-- `ExperimentSetup._update_custom_read_methods` (lines 482-506) for one
model config entry. -/
def update_custom_read_methods_entry (addMethods : List String)
    (mcfg : EVal) : Except PyErr Unit :=
  match dict_items mcfg with
  | none => .ok ()
  | some es =>
    match alookup es "model_read_aux" with
    | none => .ok ()
    | some .enone => .ok ()
    | some (.edict maux) => check_read_aux_entries addMethods maux
    | some _ => .error .valueError

/-- `_update_custom_read_methods` over all model config entries. -/
def update_custom_read_methods (addMethods : List String) :
    List (String × EVal) → Except PyErr Unit
  | [] => .ok ()
  | (_, mcfg) :: t => do
    let _ ← update_custom_read_methods_entry addMethods mcfg
    update_custom_read_methods addMethods t

/-- The names registered in the `add_methods` attribute. -/
def add_methods_of (attrs : ESDict) : List String :=
  match alookup attrs "add_methods" with
  | some (.edict es) => es.map Prod.fst
  | _ => []

/-- `ExperimentSetup.FORBIDDEN_ATTRS` (line 200). -/
def forbidden_attrs : List String := ["basedir_coldata"]

/-- `ExperimentSetup._ALLOWED_ZOOM_REGIONS` (line 211). -/
def zoom_regions : List String := ["World", "Europe"]

/-- `ExperimentSetup.__setitem__` (experiment_setup.py lines 603-633).
The embedding returns the final instance `__dict__`.  Every
non-raising branch of the source falls through to the LAST line
`self.__dict__[key] = val`, which stores the raw input value under the
key — after the special branches already did their work:
 - a colocation-settings key updates the settings object AND leaves a
   shadowing instance attribute;
 - `obs_config` / `model_config` run the conversion, bind the converted
   dict, and then this last line overwrites it with the raw input;
 - `colocation_settings` / `var_mapping` update the respective object,
   which the last line then replaces with the raw input value. -/
def setitem (attrs : ESDict) (key : String) (val : EVal) :
    Except PyErr ESDict :=
  if key ∈ forbidden_attrs then .error .attributeError
  else
    match alookup attrs "colocation_settings" with
    | none => .error .attributeError
    | some cs =>
      match dict_items cs with
      | none => .error .typeError
      | some es =>
        match alookup es key with
        | some _ =>
          .ok (aupdate
            (aupdate attrs "colocation_settings"
              (rewrap_dict cs (aupdate es key val)))
            key val)
        | none =>
        if key = "obs_config" then
          match dict_items val with
          | none => .error .attributeError
          | some entries =>
            match set_obsconfig_entries entries with
            | .error e => .error e
            | .ok _cfg => .ok (aupdate attrs key val)
        else if key = "model_config" then
          match dict_items val with
          | none => .error .attributeError
          | some entries =>
            match set_modelconfig_entries entries with
            | .error e => .error e
            | .ok cfg =>
              match update_custom_read_methods (add_methods_of attrs) cfg with
              | .error e => .error e
              | .ok _ => .ok (aupdate attrs key val)
        else if key = "colocation_settings" then
          match dict_items val with
          | none => .error .typeError
          | some _ => .ok (aupdate attrs key val)
        else if key = "var_mapping" then
          match alookup attrs "var_mapping" with
          | none => .error .attributeError
          | some vm =>
            match dict_items vm, dict_items val with
            | some _, some _ => .ok (aupdate attrs key val)
            | _, _ => .error .typeError
        else
          match val with
          | .edict dv =>
            if (alookup dv "obs_id").isSome then
              match alookup attrs "obs_config" with
              | none => .error .attributeError
              | some oc =>
                match dict_items oc with
                | none => .error .typeError
                | some oes =>
                  match obs_config_eval (.edict dv) with
                  | .error e => .error e
                  | .ok conv =>
                    .ok (aupdate
                      (aupdate attrs "obs_config"
                        (rewrap_dict oc (aupdate oes key conv)))
                      key val)
            else if (alookup dv "model_id").isSome then
              match alookup attrs "model_config" with
              | none => .error .attributeError
              | some mc =>
                match dict_items mc with
                | none => .error .typeError
                | some mes =>
                  match model_config_eval dv with
                  | .error e => .error e
                  | .ok conv =>
                    .ok (aupdate
                      (aupdate attrs "model_config"
                        (rewrap_dict mc (aupdate mes key conv)))
                      key val)
            else .ok (aupdate attrs key val)
          | _ =>
            if key = "map_zoom_default" then
              match val with
              | .estr s =>
                if s ∈ zoom_regions then .ok (aupdate attrs key val)
                else .error .valueError
              | _ => .error .valueError
            else if (alookup attrs key).isSome then .ok (aupdate attrs key val)
            else .error .valueError

/-- Whether `key in self.colocation_settings` holds on this state. -/
def col_has_key (attrs : ESDict) (key : String) : Bool :=
  match alookup attrs "colocation_settings" with
  | some cs =>
    match dict_items cs with
    | some es => (alookup es key).isSome
    | none => false
  | none => false

/-- The value the colocation-settings object binds `key` to. -/
def col_lookup (attrs : ESDict) (key : String) : Option EVal :=
  match alookup attrs "colocation_settings" with
  | some cs =>
    match dict_items cs with
    | some es => alookup es key
    | none => none
  | none => none

/-! ### Super-observation merge (experiment_setup.py lines 961-1009 and
1221-1357) -/

/-- Metadata parsed from a colocated-data filename
(`ColocatedData.get_meta_from_filename`). -/
structure ColMeta where
  obs_source : String
  model_source : String
  var_name : String
  ts_type : String
  deriving Repr, DecidableEq

/-- Modelled from the spec: a loaded `ColocatedData` artifact
(colocateddata.py is not under src/).  The spec describes it as a tensor
keyed by (station, time, model/obs value) with `data_source`
(obs_name, model_name), `var_name`, `ts_type` and resampling parameters in
a metadata dict; only the pieces the super-obs merge reads are kept. -/
structure ColData where
  ts_type : String
  data_source_obs : String
  data_source_model : String
  stations : List String
  metadata : List (String × MVal)
  deriving Repr, DecidableEq

/-- `obs_id` of an obs config entry: a plain string for a real network, a
list of constituent network names for a super-observation. -/
inductive ObsId where
  | single (s : String)
  | multi (names : List String)
  deriving Repr, DecidableEq

/-- `obs_vert_type` of an obs config entry: a fixed vertical code or a
per-variable mapping (see `get_vert_code`, lines 902-907). -/
inductive VertType where
  | fixed (code : String)
  | perVar (m : List (String × String))
  deriving Repr, DecidableEq

/-- The obs config fields the super-obs merge reads. -/
structure ObsEntry where
  obs_id : ObsId
  obs_vars : List String
  obs_vert_type : VertType
  is_superobs : Bool
  deriving Repr, DecidableEq

/-- The model config fields the super-obs merge reads. -/
structure ModelEntry where
  model_id : String
  model_use_vars : List (String × String)
  deriving Repr, DecidableEq

/-- The environment a super-obs run sees: the configuration plus the
colocated-data directory contents.  `listdir` is the file listing of
`coldata_dir/<model_name>` (`none` = directory absent); `file_meta` is
`ColocatedData.get_meta_from_filename` (modelled from the spec: the
filename losslessly encodes the metadata tuple; colocateddata.py is not
under src/; `none` = unparsable file, warned and skipped);
`load_coldata` is `ColocatedData(fp)` (modelled from the spec). -/
structure SuperEnv where
  obs_config : List (String × ObsEntry)
  model_config : List (String × ModelEntry)
  listdir : String → Option (List String)
  file_meta : String → Option ColMeta
  load_coldata : String → Option ColData
  raise_exceptions : Bool
  reanalyse_existing : Bool

/-- The per-file matching loop of `find_coldata_files` (lines 983-999).
NOTE: the source rebinds the loop-enclosing `var_name` via
`var_name = self.model_config[model_name]['model_use_vars'][var_name]`
(inside `try: ... except: pass`), so the translation persists across
files; the embedding threads the rebound name. -/
def find_files_loop (env : SuperEnv) (model obs : String) :
    List String → Option String → List String
  | [], _ => []
  | fname :: rest, var? =>
    match env.file_meta fname with
    | none => find_files_loop env model obs rest var?
    | some m =>
      let var2 : Option String :=
        match var? with
        | none => none
        | some v =>
          match alookup env.model_config model with
          | some mc =>
            match alookup mc.model_use_vars v with
            | some v2 => some v2
            | none => some v
          | none => some v
      let ok : Bool :=
        decide (m.obs_source = obs) && decide (m.model_source = model) &&
          (match var2 with
           | none => true
           | some v => decide (m.var_name = v))
      (if ok then [fname] else []) ++ find_files_loop env model obs rest var2

/-- `ExperimentSetup.find_coldata_files` (lines 961-1009): requires the
model name to be configured (`get_model_id` raises KeyError otherwise),
collects the matching files, and — when none match — raises IOError if
`raise_exceptions` is set, else logs a warning and returns the empty
list. -/
def find_coldata_files (env : SuperEnv) (model obs : String)
    (var? : Option String) : Except PyErr (List String) :=
  match alookup env.model_config model with
  | none => .error .keyError
  | some _ =>
    let files :=
      match env.listdir model with
      | none => []
      | some names => find_files_loop env model obs names var?
    if files.length = 0 ∧ env.raise_exceptions then .error .ioError
    else .ok files

/-- `ExperimentSetup.get_vert_code` (lines 902-907). -/
def get_vert_code (env : SuperEnv) (obs var : String) :
    Except PyErr String :=
  match alookup env.obs_config obs with
  | none => .error .keyError
  | some oe =>
    match oe.obs_vert_type with
    | .fixed s => .ok s
    | .perVar m =>
      match alookup m var with
      | some s => .ok s
      | none => .error .keyError

/-- Accumulator of the per-constituent loop of
`_run_superobs_entry_var` (lines 1248-1272): `coldata_files`,
`coldata_resolutions`, `vert_codes`. -/
structure CollectAcc where
  files : List String
  resolutions : List String
  vert_codes : List String
  deriving Repr, DecidableEq

/-- The per-constituent loop of `_run_superobs_entry_var` (lines
1252-1272).  `rc` stands for `self.run_colocation` (modelled from the
spec: it triggers computation of the colocated artifact, transforming the
filesystem environment; the method body is not under src/).  With
`reanalyse_existing=False` and `try_colocate_if_missing=False` it is
never invoked.  Each constituent must yield EXACTLY one colocated file,
otherwise `ValueError` ("Fatal: Found multiple colocated data objects
...", also raised for zero files). -/
def superobs_collect (rc : SuperEnv → String → String → String → SuperEnv)
    (model var : String) (tryMissing : Bool) :
    SuperEnv → List String → CollectAcc →
      Except PyErr (SuperEnv × CollectAcc)
  | env, [], acc => .ok (env, acc)
  | env, obs :: rest, acc =>
    let step : Except PyErr (SuperEnv × List String) :=
      if env.reanalyse_existing then
        let env2 := rc env model obs var
        match find_coldata_files env2 model obs (some var) with
        | .error e => .error e
        | .ok cdf => .ok (env2, cdf)
      else
        match find_coldata_files env model obs (some var) with
        | .error e => .error e
        | .ok cdf =>
          if cdf.length = 0 ∧ tryMissing then
            let env2 := rc env model obs var
            match find_coldata_files env2 model obs (some var) with
            | .error e => .error e
            | .ok cdf2 => .ok (env2, cdf2)
          else .ok (env, cdf)
    match step with
    | .error e => .error e
    | .ok (env2, cdf) =>
      match cdf with
      | [fp] =>
        match env2.file_meta fp with
        | none => .error .keyError
        | some m =>
          match get_vert_code env2 obs var with
          | .error e => .error e
          | .ok vc =>
            superobs_collect rc model var tryMissing env2 rest
              { files := acc.files ++ [fp],
                resolutions := acc.resolutions ++ [m.ts_type],
                vert_codes := acc.vert_codes ++ [vc] }
      | _ => .error .valueError

/-- Modelled from the spec: the coarseness rank of a `ts_type`
(`get_lowest_resolution` lives in pyaerocom/helpers.py, not under src/;
the spec glossary lists hourly/daily/monthly/yearly and the super-obs
merge resamples to the lowest common frequency, "coarsest wins"). -/
def ts_coarseness (s : String) : Nat :=
  if s = "hourly" then 1
  else if s = "daily" then 2
  else if s = "monthly" then 3
  else if s = "yearly" then 4
  else 0

/-- Modelled from the spec: `get_lowest_resolution(*ts_types)` returns
the coarsest of its arguments. -/
def get_lowest_resolution (first : String) (rest : List String) : String :=
  rest.foldl
    (fun acc t => if ts_coarseness acc < ts_coarseness t then t else acc)
    first

/-- Modelled from the spec: `ColocatedData.resample_time(to_ts_type=...,
inplace=True)` resamples to the (coarser) target frequency, changing
`ts_type` and keeping the station dimension.  The source reads
`meta['apply_constraints']`, `meta['min_num_obs']` and
`meta['colocate_time']` as call arguments — a KeyError when one is
missing (`resample_how` alone is read inside try/except KeyError). -/
def resample_time (d : ColData) (toFreq : String) : Except PyErr ColData :=
  if (alookup d.metadata "apply_constraints").isSome ∧
      (alookup d.metadata "min_num_obs").isSome ∧
      (alookup d.metadata "colocate_time").isSome then
    .ok { d with ts_type := toFreq }
  else .error .keyError

/-- The resample-and-relabel loop of `_run_superobs_entry_var` (lines
1288-1310): each artifact is loaded, resampled when its `ts_type` is not
the target, and its observation data source is relabelled to the
super-observation's name (the model source is kept). -/
def superobs_process (env : SuperEnv) (superName toFreq : String) :
    List String → Except PyErr (List ColData)
  | [] => .ok []
  | fp :: rest =>
    match env.load_coldata fp with
    | none => .error .ioError
    | some d =>
      let step : Except PyErr ColData :=
        if d.ts_type ≠ toFreq then resample_time d toFreq else .ok d
      match step with
      | .error e => .error e
      | .ok d2 =>
        match superobs_process env superName toFreq rest with
        | .error e => .error e
        | .ok ds => .ok ({ d2 with data_source_obs := superName } :: ds)

/-- Modelled from the spec: `xr.concat(darrs, dim='station_name')` —
concatenation along the station dimension (not time), so the station
lists append. -/
def xr_concat_stations : List ColData → ColData
  | [] =>
    { ts_type := "", data_source_obs := "", data_source_model := "",
      stations := [], metadata := [] }
  | d :: rest =>
    { ts_type := d.ts_type, data_source_obs := d.data_source_obs,
      data_source_model := d.data_source_model,
      stations := (d :: rest).foldr (fun x acc => x.stations ++ acc) [],
      metadata := d.metadata }

/-- What `_run_superobs_entry_var` hands to
`compute_json_files_from_colocateddata` (lines 1312-1329): the merged
artifact, the shared vertical code, and `diurnal_only=False` (forced). -/
structure SuperRunResult where
  merged : ColData
  vert_code : String
  diurnal_only : Bool
  deriving Repr, DecidableEq

/-- `ExperimentSetup._run_superobs_entry_var` (lines 1221-1329).  The
`obs_id` of the super-obs entry is iterated as `obs_needed` (a plain
string would be iterated character-wise by Python; the embedding maps it
to its one-character names).  After the per-constituent collection, the
vertical codes must be consistent (`np.unique(vert_codes)` of size one
and equal to the super-obs's own code), then every artifact is resampled
to the lowest common resolution, relabelled and concatenated along the
station dimension. -/
def run_superobs_entry_var
    (rc : SuperEnv → String → String → String → SuperEnv)
    (env : SuperEnv) (model superName var : String) (tryMissing : Bool) :
    Except PyErr SuperRunResult :=
  match alookup env.obs_config superName with
  | none => .error .keyError
  | some soe =>
    let obsNeeded : List String :=
      match soe.obs_id with
      | .single s => s.data.map (fun c => String.mk [c])
      | .multi names => names
    match superobs_collect rc model var tryMissing env obsNeeded
        { files := [], resolutions := [], vert_codes := [] } with
    | .error e => .error e
    | .ok (env2, acc) =>
      match get_vert_code env2 superName var with
      | .error e => .error e
      | .ok svc =>
        match acc.vert_codes with
        | [] => .error .indexError
        | vc0 :: _ =>
          if acc.vert_codes.dedup.length > 1 ∨ ¬ (vc0 = svc) then
            .error .valueError
          else if ¬ (acc.files.length = obsNeeded.length) then
            .error .valueError
          else
            match acc.resolutions with
            | [] => .error .typeError
            | r0 :: rrest =>
              let toFreq := get_lowest_resolution r0 rrest
              match superobs_process env2 superName toFreq acc.files with
              | .error e => .error e
              | .ok ds =>
                .ok { merged := xr_concat_stations ds, vert_code := vc0,
                      diurnal_only := false }

/-- The per-variable loop of `_run_superobs_entry` (lines 1346-1357):
any exception out of `_run_superobs_entry_var` is re-raised when
`raise_exceptions` is set, and otherwise logged as a warning and the
variable skipped.  The outcome list records the logged failure per
variable.  (The embedding keeps `env` fixed across variables; the claims
are settled with settings under which `run_colocation` — the only
environment mutator — is never invoked.) -/
def run_superobs_vars_loop
    (rc : SuperEnv → String → String → String → SuperEnv)
    (env : SuperEnv) (model superName : String) (tryMissing : Bool) :
    List String → Except PyErr (List (String × Option PyErr))
  | [] => .ok []
  | v :: rest =>
    match run_superobs_entry_var rc env model superName v tryMissing with
    | .ok _ =>
      match run_superobs_vars_loop rc env model superName tryMissing rest with
      | .error e => .error e
      | .ok r => .ok ((v, none) :: r)
    | .error e =>
      if env.raise_exceptions then .error e
      else
        match run_superobs_vars_loop rc env model superName tryMissing rest with
        | .error e2 => .error e2
        | .ok r => .ok ((v, some e) :: r)

/-- `ExperimentSetup._run_superobs_entry` (lines 1331-1357). -/
def run_superobs_entry
    (rc : SuperEnv → String → String → String → SuperEnv)
    (env : SuperEnv) (model superName : String) (var? : Option String)
    (tryMissing : Bool) :
    Except PyErr (List (String × Option PyErr)) :=
  match alookup env.obs_config superName with
  | none => .error .attributeError
  | some soe =>
    if soe.is_superobs = false then .error .valueError
    else
      let processVars :=
        match var? with
        | some v => [v]
        | none => soe.obs_vars
      run_superobs_vars_loop rc env model superName tryMissing processVars

/-! ### Concrete super-obs environments used by the theorems -/

/-- A `run_colocation` stand-in that changes nothing (the theorems below
establish that it is never invoked in the relevant settings). -/
def rcId : SuperEnv → String → String → String → SuperEnv :=
  fun env _ _ _ => env

/-- A plain (surface) constituent obs entry. -/
def obsPlain : ObsEntry :=
  { obs_id := .single "aid", obs_vars := ["od550aer"],
    obs_vert_type := .fixed "Surface", is_superobs := false }

/-- A constituent obs entry declaring vertical code Column. -/
def obsColumn : ObsEntry :=
  { obs_id := .single "aid", obs_vars := ["od550aer"],
    obs_vert_type := .fixed "Column", is_superobs := false }

/-- The super-observation entry with constituents A and B. -/
def obsSuper : ObsEntry :=
  { obs_id := .multi ["A", "B"], obs_vars := ["od550aer"],
    obs_vert_type := .fixed "Surface", is_superobs := true }

/-- A's colocated artifact: hourly, two stations. -/
def exColA : ColData :=
  { ts_type := "hourly", data_source_obs := "A",
    data_source_model := "EMEP-m", stations := ["s1", "s2"],
    metadata := [("apply_constraints", .mbool true),
      ("min_num_obs", .mnum 3), ("colocate_time", .mbool false)] }

/-- B's colocated artifact: daily, one station (disjoint from A's). -/
def exColB : ColData :=
  { ts_type := "daily", data_source_obs := "B",
    data_source_model := "EMEP-m", stations := ["s3"], metadata := [] }

def exModelEntry : ModelEntry :=
  { model_id := "EMEP-m", model_use_vars := [] }

/-- Directory listing: both artifacts present under model EMEP. -/
def exListdir (m : String) : Option (List String) :=
  if m = "EMEP" then some ["fa.nc", "fb.nc"] else none

/-- Directory listing with B's artifact absent. -/
def exListdirOne (m : String) : Option (List String) :=
  if m = "EMEP" then some ["fa.nc"] else none

def exFileMeta (f : String) : Option ColMeta :=
  if f = "fa.nc" then some ⟨"A", "EMEP", "od550aer", "hourly"⟩
  else if f = "fb.nc" then some ⟨"B", "EMEP", "od550aer", "daily"⟩
  else none

def exLoad (f : String) : Option ColData :=
  if f = "fa.nc" then some exColA
  else if f = "fb.nc" then some exColB
  else none

/-- The C3 environment: super-obs SUPER over A (hourly) and B (daily),
one colocated artifact each, consistent vertical codes. -/
def exEnvSuper : SuperEnv :=
  { obs_config := [("A", obsPlain), ("B", obsPlain), ("SUPER", obsSuper)],
    model_config := [("EMEP", exModelEntry)],
    listdir := exListdir, file_meta := exFileMeta, load_coldata := exLoad,
    raise_exceptions := false, reanalyse_existing := false }

/-- The C4 environment: B's colocated artifact is absent. -/
def exEnvMissing : SuperEnv :=
  { exEnvSuper with listdir := exListdirOne }

/-- The C5 environment: constituent B declares vertical code Column while
A and SUPER declare Surface. -/
def exEnvVertMismatch : SuperEnv :=
  { exEnvSuper with
    obs_config := [("A", obsPlain), ("B", obsColumn), ("SUPER", obsSuper)] }

/-- The C5 environment with `raise_exceptions=True`. -/
def exEnvVertMismatchRaise : SuperEnv :=
  { exEnvVertMismatch with raise_exceptions := true }

/-! ### Map filenames (`_info_from_map_file`, experiment_setup.py lines
1698-1716) and the menu rebuild (lines 1762-1866) -/

/-- The last element of a split result (`spl[-1]`; a split result is
never empty). -/
def pyLastD : List (List Char) → List Char
  | [] => []
  | [p] => p
  | _ :: t => pyLastD t

/-- `os.path.basename`: the part after the last '/'. -/
def basenameCh (s : List Char) : List Char :=
  pyLastD (pySplitCh '/' s)

/-- The characters of ".json". -/
def jsonSep : List Char := ['.', 'j', 's', 'o', 'n']

/-- `sep` is a prefix of the text. -/
def hasPref : List Char → List Char → Bool
  | [], _ => true
  | _ :: _, [] => false
  | a :: as, b :: bs => decide (a = b) && hasPref as bs

/-- `sep` occurs somewhere in the text. -/
def hasSub (sep : List Char) : List Char → Bool
  | [] => hasPref sep []
  | a :: t => hasPref sep (a :: t) || hasSub sep t

/-- `text.split(sep)[0]` for a multi-character separator: the prefix of
the text before the first occurrence of `sep` (the whole text when `sep`
does not occur). -/
def beforeSub (sep : List Char) : List Char → List Char
  | [] => []
  | a :: t => if hasPref sep (a :: t) then [] else a :: beforeSub sep t

/-- `ExperimentSetup._info_from_map_file` (lines 1698-1716):
`os.path.basename(filename).split('.json')[0].split('_')` must have
exactly 3 parts (else `FileConventionError`); the third part splits on
'-' into model name (all but the last token, re-joined) and model
variable (last token); likewise the first part into obs name and obs
variable. -/
def info_from_map_file (filename : List Char) :
    Except PyErr
      (List Char × List Char × List Char × List Char × List Char) :=
  match pySplitCh '_' (beforeSub jsonSep (basenameCh filename)) with
  | [obsinfo, vert, modinfo] =>
    .ok (pyJoinCh '-' (pySplitCh '-' obsinfo).dropLast,
      pyLastD (pySplitCh '-' obsinfo), vert,
      pyJoinCh '-' (pySplitCh '-' modinfo).dropLast,
      pyLastD (pySplitCh '-' modinfo))
  | _ => .error .fileConventionError

/-- Modelled from the spec: the map-JSON filename written for a result,
`<obs_name>-<obs_var>_<vert_code>_<model_name>-<model_var>.json` (the
writer, aeroval/coldata_to_json.py, is not under src/; the format is
the one `_info_from_map_file` documents and the spec states). -/
def map_file_name (oname ovar vc mname mvar : List Char) : List Char :=
  oname ++ '-' :: ovar ++ '_' :: vc ++ '_' :: mname ++ '-' :: mvar
    ++ jsonSep

/-- The model-entry leaf of the available-results dict
(`model_id`, `model_var`, `obs_var`). -/
structure MenuModelInfo where
  model_id : List Char
  model_var : List Char
  obs_var : List Char
  deriving Repr, DecidableEq

/-- A parsed-and-kept map-file row
(`[obs_var, obs_name, vert_code, mod_name, mod_var]`). -/
structure MapRow where
  obs_var : List Char
  obs_name : List Char
  vert_code : List Char
  mod_name : List Char
  mod_var : List Char
  deriving Repr, DecidableEq

/-- The environment the menu rebuild reads: the map-directory listing
(`none` = directory missing → FileNotFoundError), the configured
interface names / obs vars / model names / model vars, and the
`model_id` of each configured model. -/
structure MenuEnv where
  map_files : Option (List (List Char))
  iface_names : List (List Char)
  obs_vars : List (List Char)
  model_names : List (List Char)
  model_vars : List (List Char)
  model_ids : List (List Char × List Char)

/-- The per-file loop of `_get_meta_from_map_files` (lines 1836-1865):
parse each filename (a `FileConventionError` propagates — it is not
caught here) and SKIP (with a warning) any row whose model name, obs
name, obs var or model var is no longer configured. -/
def map_files_loop (env : MenuEnv) :
    List (List Char) → Except PyErr (List MapRow)
  | [] => .ok []
  | file :: rest =>
    match info_from_map_file file with
    | .error e => .error e
    | .ok (oname, ovar, vert, mname, mvar) =>
      if ¬ (mname ∈ env.model_names) then map_files_loop env rest
      else if ¬ (oname ∈ env.iface_names) then map_files_loop env rest
      else if ¬ (ovar ∈ env.obs_vars) then map_files_loop env rest
      else if ¬ (mvar ∈ env.model_vars) then map_files_loop env rest
      else
        match map_files_loop env rest with
        | .error e => .error e
        | .ok t => .ok (⟨ovar, oname, vert, mname, mvar⟩ :: t)

/-- `ExperimentSetup._get_meta_from_map_files` (lines 1823-1866). -/
def get_meta_from_map_files (env : MenuEnv) : Except PyErr (List MapRow) :=
  match env.map_files with
  | none => .error .fileNotFoundError
  | some files =>
    if files.length > 0 then map_files_loop env files else .ok []

/-- A node of the available-results dict: variable-level info and the
nested obs → obs_var → vert_code → model mapping (lines 1868-1907). -/
structure MenuVarEntry where
  tp : List Char
  cat : List Char
  name : List Char
  longname : List Char
  obs :
    List (List Char ×
      List (List Char × List (List Char × List (List Char × MenuModelInfo))))

/-- The available-results dict keyed by (possibly starred) model
variable name. -/
abbrev MenuAvail := List (List Char × MenuVarEntry)

/-- Generic dict lookup keyed by char lists. -/
def clookup (l : List (List Char × α)) (k : List Char) : Option α :=
  match l with
  | [] => none
  | (k2, v) :: t => if k2 = k then some v else clookup t k

/-- Generic dict update keyed by char lists. -/
def cupdate (l : List (List Char × α)) (k : List Char) (v : α) :
    List (List Char × α) :=
  match l with
  | [] => [(k, v)]
  | (k2, v2) :: t => if k2 = k then (k2, v) :: t else (k2, v2) :: cupdate t k v

/-- One row of the `_get_available_results_dict` loop (lines 1878-1906):
the model variable is starred when it differs from the obs variable, an
empty var-dummy is created on first sight (its name/type/category come
from `var_mapping` with UNDEFINED defaults — never raising — and its
long name from the external `const.VARS` registry; both are modelled as
fixed placeholder values since the menu rebuild crashes before they are
observable), and the nested dicts
are extended with the model entry whose `model_id` is looked up in the
model config (KeyError when the model is not configured — pruning above
makes that unreachable). -/
def avail_add_row (env : MenuEnv) (acc : MenuAvail) (row : MapRow) :
    Except PyErr MenuAvail :=
  let modvarname :=
    if row.mod_var ≠ row.obs_var then row.mod_var ++ ['*'] else row.mod_var
  let d : MenuVarEntry :=
    match clookup acc modvarname with
    | some d0 => d0
    | none =>
      { tp := [], cat := [], name := row.mod_var, longname := [], obs := [] }
  let dobs := (clookup d.obs row.obs_name).getD []
  let dobsvar := (clookup dobs row.obs_var).getD []
  let dvert := (clookup dobsvar row.vert_code).getD []
  match clookup env.model_ids row.mod_name with
  | none => .error .keyError
  | some mid =>
    let dvert2 := cupdate dvert row.mod_name ⟨mid, row.mod_var, row.obs_var⟩
    let dobsvar2 := cupdate dobsvar row.vert_code dvert2
    let dobs2 := cupdate dobs row.obs_var dobsvar2
    let d2 := { d with obs := cupdate d.obs row.obs_name dobs2 }
    .ok (cupdate acc modvarname d2)

/-- `ExperimentSetup._get_available_results_dict` (lines 1868-1907). -/
def get_available_results_dict (env : MenuEnv) :
    Except PyErr MenuAvail := do
  let tab ← get_meta_from_map_files env
  tab.foldlM (avail_add_row env) []

/-- `ExperimentSetup._sort_menu_entries` (lines 1781-1821).  Its FIRST
statement is `sort_dict_by_name(avail, pref_list=config.var_order_menu)`
— but `config` is bound nowhere in experiment_setup.py (no import, no
module global; the docstring still documents it as a parameter of an
older free function), so evaluating `config.var_order_menu` raises
NameError before anything is sorted. -/
def sort_menu_entries (_avail : MenuAvail) : Except PyErr MenuAvail :=
  .error .nameError

/-- `ExperimentSetup.update_menu` (lines 1762-1779): build the available
results from the map files, sort, write menu.json.  The write is never
reached because `_sort_menu_entries` raises. -/
def update_menu (env : MenuEnv) : Except PyErr MenuAvail := do
  let avail ← get_available_results_dict env
  let avail2 ← sort_menu_entries avail
  .ok avail2

/-- Map directory with one stale file (model STALE not configured). -/
def exMenuEnv : MenuEnv :=
  { map_files := some ["OBS1-od550aer_Surface_STALE-od550aer.json".data],
    iface_names := ["OBS1".data],
    obs_vars := ["od550aer".data],
    model_names := ["GOODMODEL".data],
    model_vars := ["od550aer".data],
    model_ids := [("GOODMODEL".data, "good-id".data)] }

/-- A 26-character model name without underscores. -/
def exLongModelName : String := "abcdefghijklmnopqrstuvwxyz"

/-- A minimal already-converted model config entry. -/
def exModelCfg : EVal := EVal.eModelCfg [("model_id", .estr "ECMWF")]

/-- A small `ExperimentSetup.__dict__` as `__init__` leaves it (only the
attributes the `__setitem__` theorems touch). -/
def exESDict : ESDict :=
  [("colocation_settings",
      .eColSetup [("reanalyse_existing", .ebool false),
        ("raise_exceptions", .ebool false)]),
    ("obs_config", .edict []), ("model_config", .edict []),
    ("var_mapping", .edict []), ("add_methods", .edict [])]

/-- `exESDict` after `self['raise_exceptions'] = True`: the settings
object is updated AND a shadowing instance attribute appears. -/
def exESDictAfter : ESDict :=
  [("colocation_settings",
      .eColSetup [("reanalyse_existing", .ebool false),
        ("raise_exceptions", .ebool true)]),
    ("obs_config", .edict []), ("model_config", .edict []),
    ("var_mapping", .edict []), ("add_methods", .edict []),
    ("raise_exceptions", .ebool true)]

end PyA

namespace PyA

/-! ## Theorems -/

theorem alookup_aupdate (l : List (String × α)) (k : String) (v : α) :
    alookup (aupdate l k v) k = some v := by
  induction l with
  | nil => simp [aupdate, alookup]
  | cons h t ih =>
    obtain ⟨k2, v2⟩ := h
    by_cases hk : k2 = k
    · simp [aupdate, alookup, hk]
    · simp [aupdate, alookup, hk, ih]

/-- C1: the claim says `merge_vardata` stashes the overlapping samples of
`other` into `self.overlap[var_name]` and concatenates the rest.  The code
instead crashes on every overlapping input: `s1.drop(index=overlap,
inplace=True)` returns None, so the subsequent `pd.concat([s0, None])`
raises TypeError.  This theorem evaluates the embedded code at the failing
input: two stations that both carry an `od550aer` series (with `var_info`
entries) and share timestamp 1. -/
theorem merge_vardata_overlapping_input_raises :
    merge_vardata exStation exStationFarOverlap "od550aer" =
      .error .typeError := by
  rfl

/-- C2: the claim says `merge_meta_same_station` raises `MetaDataError`
when the coordinates differ by more than `coord_tol_km` and
`check_coords=True`.  The code calls `same_coords` but discards its
boolean result (the surrounding `try/except MetaDataError: pass` would
even swallow a raise), so the merge completes without error for EVERY
distance function, in particular for stations about 5500 km apart with the
default 0.1 km tolerance. -/
theorem merge_meta_same_station_far_coords_does_not_raise :
    ∀ dist : Rat → Rat → Rat → Rat → Rat → Rat → Rat,
      (merge_meta_same_station dist exClassState exStation
        exStationFarOverlap none true []).isOk = true := by
  intro dist
  rfl

/-- C10: calling `merge_meta_same_station` with `add_meta_keys` extends
the class-level `STANDARD_META_KEYS` list in place (the local `keys`
aliases the class attribute), so every later merge — of any instance —
uses a key set that contains the added keys. -/
theorem merge_meta_same_station_extends_standard_meta_keys
    (dist : Rat → Rat → Rat → Rat → Rat → Rat → Rat)
    (cls : StationClassState) (self other : StationData)
    (tol : Option Rat) (cc : Bool) (addKeys : List String)
    (cls2 : StationClassState) (obj : StationData)
    (h : merge_meta_same_station dist cls self other tol cc addKeys =
      .ok (cls2, obj)) :
    cls2.standard_meta_keys = cls.standard_meta_keys ++ addKeys ∧
    ∀ addKeys2, ∀ k ∈ addKeys, k ∈ merge_keys cls2 addKeys2 := by
  unfold merge_meta_same_station at h
  split at h
  · exact Except.noConfusion h
  · cases hc : merge_meta_coord_check dist self other tol cc with
    | error e =>
      rw [hc] at h
      exact Except.noConfusion h
    | ok u =>
      rw [hc] at h
      cases hf : merge_meta_fold other self (merge_keys cls addKeys) with
      | error e =>
        rw [hf] at h
        exact Except.noConfusion h
      | ok obj2 =>
        rw [hf] at h
        have h1 :
            (({ standard_meta_keys := merge_keys cls addKeys } :
                StationClassState), obj2) = (cls2, obj) :=
          Except.ok.inj h
        have h2 : cls2 = { standard_meta_keys := merge_keys cls addKeys } :=
          (congrArg Prod.fst h1).symm
        subst h2
        refine ⟨rfl, ?_⟩
        intro ak2 k hk
        show k ∈ (cls.standard_meta_keys ++ addKeys) ++ ak2
        exact List.mem_append.2 (Or.inl (List.mem_append.2 (Or.inr hk)))

theorem alookup_aupdate_ne (l : List (String × α)) (k1 : String) (v : α)
    (k2 : String) (h : k1 ≠ k2) :
    alookup (aupdate l k1 v) k2 = alookup l k2 := by
  induction l with
  | nil => simp [aupdate, alookup, h]
  | cons p t ih =>
    obtain ⟨a, b⟩ := p
    by_cases ha : a = k1
    · subst ha
      simp [aupdate, alookup, h]
    · by_cases hb : a = k2
      · subst hb
        simp [aupdate, alookup, ha]
      · simp [aupdate, alookup, ha, hb, ih]

theorem dict_items_rewrap (cs : EVal) (es es2 : List (String × EVal))
    (h : dict_items cs = some es) :
    dict_items (rewrap_dict cs es2) = some es2 := by
  cases cs <;> simp [dict_items, rewrap_dict] at h ⊢

/-- C8 (part): `_check_model_config`'s elif chain makes the
`len(mname) > 25 → ValueError` branch unreachable: a 26-character
underscore-free model name only triggers the `len > 20` warning and the
check succeeds, while an underscore does raise. -/
theorem check_model_config_length_valueerror_unreachable :
    check_model_config [(exLongModelName, exModelCfg)] =
        .ok [(exLongModelName, exModelCfg)] ∧
      check_model_config [("bad_name", exModelCfg)] =
        .error .attributeError := by
  constructor <;> rfl

/-- C9: every successful `__setitem__` ends with
`self.__dict__[key] = val`, so the attribute is bound to the RAW input
value no matter which special-case branch ran (in particular the
ObsConfigEval/ModelConfigEval conversion of an `obs_config` /
`model_config` dict is discarded); and a colocation-settings key is
additionally written into the settings object, leaving a same-named
shadowing instance attribute. -/
theorem setitem_stores_raw_value (attrs : ESDict) (key : String)
    (val : EVal) (s2 : ESDict) (h : setitem attrs key val = .ok s2) :
    alookup s2 key = some val ∧
    (key ≠ "colocation_settings" → col_has_key attrs key = true →
      col_lookup s2 key = some val) := by
  unfold setitem at h
  split at h
  · exact Except.noConfusion h
  · cases hcs : alookup attrs "colocation_settings" with
    | none =>
      simp only [hcs] at h
      exact Except.noConfusion h
    | some cs =>
      simp only [hcs] at h
      cases hdi : dict_items cs with
      | none =>
        simp only [hdi] at h
        exact Except.noConfusion h
      | some es =>
        simp only [hdi] at h
        cases hk : alookup es key with
        | some v0 =>
          simp only [hk] at h
          have hx := Except.ok.inj h
          subst hx
          refine ⟨alookup_aupdate _ _ _, ?_⟩
          intro hne _
          unfold col_lookup
          rw [alookup_aupdate_ne _ _ _ _ hne, alookup_aupdate]
          simp only [dict_items_rewrap cs es _ hdi]
          exact alookup_aupdate es key val
        | none =>
          simp only [hk] at h
          have hckF : col_has_key attrs key = false := by
            simp [col_has_key, hcs, hdi, hk]
          repeat' split at h
          any_goals exact Except.noConfusion h
          all_goals
            have hx := Except.ok.inj h
            subst hx
            refine ⟨alookup_aupdate _ _ _, ?_⟩
            intro hne hck
            rw [hckF] at hck
            exact Bool.noConfusion hck

/-- Witness for C9: setting the colocation key `raise_exceptions` on a
concrete `ExperimentSetup.__dict__` stores the raw value as a shadowing
instance attribute and updates the settings object. -/
theorem setitem_stores_raw_value_witness :
    alookup exESDictAfter "raise_exceptions" = some (.ebool true) ∧
      col_lookup exESDictAfter "raise_exceptions" = some (.ebool true) := by
  have h := setitem_stores_raw_value exESDict "raise_exceptions"
    (.ebool true) exESDictAfter (by rfl)
  exact ⟨h.1, h.2 (by decide) (by rfl)⟩

/-- Witness for C10 at a concrete input: merging `exStation` with itself
(second copy) and `add_meta_keys=["pi"]` succeeds and leaves the class
attribute permanently extended by "pi". -/
theorem merge_meta_same_station_extends_standard_meta_keys_witness :
    exClassStateAfter.standard_meta_keys =
        exClassState.standard_meta_keys ++ ["pi"] ∧
      "pi" ∈ merge_keys exClassStateAfter [] := by
  have h := merge_meta_same_station_extends_standard_meta_keys
    (fun _ _ _ _ _ _ => 1000) exClassState exStation exStationFarOverlap
    none true ["pi"] exClassStateAfter exStation (by rfl)
  exact ⟨h.1, h.2 [] "pi" (by simp)⟩

/-- Helper: the per-constituent collection over two constituents that
each have exactly one artifact. -/
theorem superobs_collect_pair
    (rc : SuperEnv → String → String → String → SuperEnv)
    (env : SuperEnv) (model var a b fa fb : String)
    (ma mb : ColMeta) (vca vcb : String)
    (h_re : env.reanalyse_existing = false)
    (hfa : find_coldata_files env model a (some var) = .ok [fa])
    (hma : env.file_meta fa = some ma)
    (hva : get_vert_code env a var = .ok vca)
    (hfb : find_coldata_files env model b (some var) = .ok [fb])
    (hmb : env.file_meta fb = some mb)
    (hvb : get_vert_code env b var = .ok vcb) :
    superobs_collect rc model var false env [a, b] ⟨[], [], []⟩ =
      .ok (env, ⟨[fa, fb], [ma.ts_type, mb.ts_type], [vca, vcb]⟩) := by
  simp [superobs_collect, h_re, hfa, hma, hva, hfb, hmb, hvb]

/-- Helper: with `reanalyse_existing=False` and
`try_colocate_if_missing=False`, the collection loop never invokes
`run_colocation`. -/
theorem superobs_collect_rc_irrelevant
    (rc rc' : SuperEnv → String → String → String → SuperEnv)
    (model var : String) (names : List String) :
    ∀ (env : SuperEnv) (acc : CollectAcc),
      env.reanalyse_existing = false →
      superobs_collect rc model var false env names acc =
        superobs_collect rc' model var false env names acc := by
  induction names with
  | nil => intro env acc h_re; rfl
  | cons obs rest ih =>
    intro env acc h_re
    simp only [superobs_collect, h_re, Bool.false_eq_true, if_false,
      and_false]
    cases hf : find_coldata_files env model obs (some var) with
    | error e => rfl
    | ok cdf =>
      dsimp only
      cases cdf with
      | nil => rfl
      | cons fp t =>
        cases t with
        | cons y t2 => rfl
        | nil =>
          dsimp only
          cases hm : env.file_meta fp with
          | none => rfl
          | some m =>
            dsimp only
            cases hv : get_vert_code env obs var with
            | error e => rfl
            | ok vc =>
              exact ih env _ h_re

/-- Helper: under the same settings, the whole per-variable run is
independent of `run_colocation`. -/
theorem run_superobs_entry_var_rc_irrelevant
    (rc rc' : SuperEnv → String → String → String → SuperEnv)
    (env : SuperEnv) (model so var : String)
    (h_re : env.reanalyse_existing = false) :
    run_superobs_entry_var rc env model so var false =
      run_superobs_entry_var rc' env model so var false := by
  unfold run_superobs_entry_var
  cases hso : alookup env.obs_config so with
  | none => rfl
  | some soe =>
    dsimp only
    rw [superobs_collect_rc_irrelevant rc rc' model var _ env _ h_re]



/-- C4: `_run_superobs_entry_var` demands exactly one matching colocated
data file per constituent (0 or more than one is a fatal ValueError), and
with `reanalyse_existing=False` and `try_colocate_if_missing=False` the
colocation routine is never invoked — the outcome is the same for every
possible `run_colocation`, so a missing constituent artifact raises the
data-availability ValueError without any colocation attempt. -/
theorem run_superobs_entry_var_requires_one_coldata_file
    (rc : SuperEnv → String → String → String → SuperEnv)
    (env : SuperEnv) (model so var a b fa : String) (soe : ObsEntry)
    (ma : ColMeta) (vca : String) (cdfb : List String)
    (h_re : env.reanalyse_existing = false)
    (hso : alookup env.obs_config so = some soe)
    (hid : soe.obs_id = .multi [a, b])
    (hfa : find_coldata_files env model a (some var) = .ok [fa])
    (hma : env.file_meta fa = some ma)
    (hva : get_vert_code env a var = .ok vca)
    (hfb : find_coldata_files env model b (some var) = .ok cdfb)
    (hlen : cdfb.length ≠ 1) :
    run_superobs_entry_var rc env model so var false = .error .valueError ∧
    ∀ rc', run_superobs_entry_var rc' env model so var false =
      run_superobs_entry_var rc env model so var false := by
  constructor
  · have hc : superobs_collect rc model var false env [a, b] ⟨[], [], []⟩ =
        .error .valueError := by
      simp only [superobs_collect, h_re, Bool.false_eq_true, if_false,
        and_false, hfa, hma, hva, hfb]
      cases cdfb with
      | nil => rfl
      | cons x t =>
        cases t with
        | nil => simp at hlen
        | cons y t2 => rfl
    simp only [run_superobs_entry_var, hso, hid]
    rw [hc]
  · intro rc2
    exact run_superobs_entry_var_rc_irrelevant rc2 rc env model so var h_re

/-- Witness for C4 at the concrete environment with B's artifact
absent. -/
theorem run_superobs_entry_var_requires_one_coldata_file_witness :
    run_superobs_entry_var rcId exEnvMissing "EMEP" "SUPER" "od550aer" false =
      .error .valueError ∧
    ∀ rc', run_superobs_entry_var rc' exEnvMissing "EMEP" "SUPER" "od550aer"
        false =
      run_superobs_entry_var rcId exEnvMissing "EMEP" "SUPER" "od550aer"
        false :=
  run_superobs_entry_var_requires_one_coldata_file rcId exEnvMissing
    "EMEP" "SUPER" "od550aer" "A" "B" "fa.nc" obsSuper
    ⟨"A", "EMEP", "od550aer", "hourly"⟩ "Surface" [] (by rfl) (by rfl)
    (by rfl) (by rfl) (by rfl) (by rfl) (by rfl) (by decide)



/-- C3: merging constituents at hourly and daily resolution, with one
artifact each and consistent vertical codes, resamples to the lowest
common frequency (daily — coarsest wins, the hourly artifact is
downsampled, the daily one untouched) and concatenates along the station
dimension, so the merged artifact is daily and its station count is the
sum of the constituents' counts. -/
theorem run_superobs_entry_var_coarsest_and_station_sum
    (rc : SuperEnv → String → String → String → SuperEnv)
    (env : SuperEnv) (model so var a b fa fb : String) (soe : ObsEntry)
    (ma mb : ColMeta) (vc : String) (dA dB : ColData)
    (h_re : env.reanalyse_existing = false)
    (hso : alookup env.obs_config so = some soe)
    (hid : soe.obs_id = .multi [a, b])
    (hfa : find_coldata_files env model a (some var) = .ok [fa])
    (hma : env.file_meta fa = some ma)
    (hva : get_vert_code env a var = .ok vc)
    (hfb : find_coldata_files env model b (some var) = .ok [fb])
    (hmb : env.file_meta fb = some mb)
    (hvb : get_vert_code env b var = .ok vc)
    (hvs : get_vert_code env so var = .ok vc)
    (hta : ma.ts_type = "hourly") (htb : mb.ts_type = "daily")
    (hla : env.load_coldata fa = some dA)
    (hlb : env.load_coldata fb = some dB)
    (hdta : dA.ts_type = "hourly") (hdtb : dB.ts_type = "daily")
    (hm1 : (alookup dA.metadata "apply_constraints").isSome = true)
    (hm2 : (alookup dA.metadata "min_num_obs").isSome = true)
    (hm3 : (alookup dA.metadata "colocate_time").isSome = true)
    (hdisj : ∀ s ∈ dA.stations, s ∉ dB.stations) :
    ∃ r, run_superobs_entry_var rc env model so var false = .ok r ∧
      r.merged.ts_type = "daily" ∧
      r.merged.stations.length =
        dA.stations.length + dB.stations.length := by
  have hc := superobs_collect_pair rc env model var a b fa fb ma mb vc vc
    h_re hfa hma hva hfb hmb hvb
  rw [hta, htb] at hc
  have hfreq : get_lowest_resolution "hourly" ["daily"] = "daily" := by rfl
  have hstepA : (if dA.ts_type ≠ "daily" then resample_time dA "daily"
      else .ok dA) = .ok { dA with ts_type := "daily" } := by
    rw [hdta, if_pos (by decide : ("hourly" : String) ≠ "daily")]
    simp [resample_time, hm1, hm2, hm3]
  have hstepB : (if dB.ts_type ≠ "daily" then resample_time dB "daily"
      else .ok dB) = .ok dB := by
    rw [hdtb]
    simp
  have hproc : superobs_process env so "daily" [fa, fb] =
      .ok [{ dA with ts_type := "daily", data_source_obs := so },
        { dB with data_source_obs := so }] := by
    simp only [superobs_process, hla, hlb]
    rw [hstepA, hstepB]
  have hded : ([vc, vc] : List String).dedup = [vc] := by simp
  refine ⟨⟨⟨"daily", so, dA.data_source_model,
      dA.stations ++ (dB.stations ++ []), dA.metadata⟩, vc, false⟩,
    ?_, rfl, by simp⟩
  simp only [run_superobs_entry_var, hso, hid]
  rw [hc]
  simp only [hvs]
  rw [if_neg (by simp [hded]), if_neg (by simp), hfreq, hproc]
  rfl



/-- Witness for C3 at the concrete hourly/daily environment. -/
theorem run_superobs_entry_var_coarsest_witness :
    ∃ r, run_superobs_entry_var rcId exEnvSuper "EMEP" "SUPER" "od550aer"
        false = .ok r ∧
      r.merged.ts_type = "daily" ∧
      r.merged.stations.length =
        exColA.stations.length + exColB.stations.length :=
  run_superobs_entry_var_coarsest_and_station_sum rcId exEnvSuper "EMEP"
    "SUPER" "od550aer" "A" "B" "fa.nc" "fb.nc" obsSuper
    ⟨"A", "EMEP", "od550aer", "hourly"⟩ ⟨"B", "EMEP", "od550aer", "daily"⟩
    "Surface" exColA exColB (by rfl) (by rfl) (by rfl) (by rfl) (by rfl)
    (by rfl) (by rfl) (by rfl) (by rfl) (by rfl) (by rfl) (by rfl)
    (by rfl) (by rfl) (by rfl) (by rfl) (by rfl) (by rfl) (by rfl)
    (by decide)

/-- C5 (amended): a vertical-code mismatch between super-obs
constituents (or between them and the super-obs's own code) raises
ValueError inside `_run_superobs_entry_var` before any merging; invoked
through `_run_superobs_entry`, that error is fatal only when
`raise_exceptions` is set — with `raise_exceptions=False` it is caught
and logged like any other per-variable failure and processing
continues. -/
theorem run_superobs_vertcode_mismatch_behavior
    (rc : SuperEnv → String → String → String → SuperEnv)
    (env : SuperEnv) (model so var a b fa fb : String) (soe : ObsEntry)
    (ma mb : ColMeta) (vca vcb svc : String)
    (h_re : env.reanalyse_existing = false)
    (hso : alookup env.obs_config so = some soe)
    (hid : soe.obs_id = .multi [a, b])
    (hsuper : soe.is_superobs = true)
    (hfa : find_coldata_files env model a (some var) = .ok [fa])
    (hma : env.file_meta fa = some ma)
    (hva : get_vert_code env a var = .ok vca)
    (hfb : find_coldata_files env model b (some var) = .ok [fb])
    (hmb : env.file_meta fb = some mb)
    (hvb : get_vert_code env b var = .ok vcb)
    (hvs : get_vert_code env so var = .ok svc)
    (hmm : vca ≠ vcb ∨ vca ≠ svc) :
    run_superobs_entry_var rc env model so var false = .error .valueError ∧
    (env.raise_exceptions = true →
      run_superobs_entry rc env model so (some var) false =
        .error .valueError) ∧
    (env.raise_exceptions = false →
      run_superobs_entry rc env model so (some var) false =
        .ok [(var, some .valueError)]) := by
  have hc := superobs_collect_pair rc env model var a b fa fb ma mb vca vcb
    h_re hfa hma hva hfb hmb hvb
  have h1 : run_superobs_entry_var rc env model so var false =
      .error .valueError := by
    simp only [run_superobs_entry_var, hso, hid]
    rw [hc]
    simp only [hvs]
    rw [if_pos ?cond]
    case cond =>
      rcases hmm with hne | hne
      · left
        have hd : ([vca, vcb] : List String).dedup = [vca, vcb] := by
          simp [hne]
        rw [hd]
        simp
      · right
        exact hne
  refine ⟨h1, ?_, ?_⟩
  · intro hr
    simp only [run_superobs_entry, hso, hsuper]
    simp only [run_superobs_vars_loop, h1, hr]
    rfl
  · intro hr
    simp only [run_superobs_entry, hso, hsuper]
    simp only [run_superobs_vars_loop, h1, hr]
    rfl

/-- C5 (counterexample to the claim as stated): with constituents A
(Surface) and B (Column) under super-obs SUPER and
`raise_exceptions=False`, `_run_superobs_entry` COMPLETES WITHOUT RAISING
— the consistency error is downgraded to a logged skip, contradicting
"always fatal, never downgraded". -/
theorem run_superobs_entry_vertcode_mismatch_swallowed :
    run_superobs_entry rcId exEnvVertMismatch "EMEP" "SUPER"
        (some "od550aer") false =
      .ok [("od550aer", some .valueError)] := by
  rfl

/-- Witness for C5 at the concrete mismatch environments (both values
of `raise_exceptions`). -/
theorem run_superobs_vertcode_mismatch_behavior_witness :
    run_superobs_entry_var rcId exEnvVertMismatch "EMEP" "SUPER" "od550aer"
        false = .error .valueError ∧
    run_superobs_entry rcId exEnvVertMismatchRaise "EMEP" "SUPER"
        (some "od550aer") false = .error .valueError ∧
    run_superobs_entry rcId exEnvVertMismatch "EMEP" "SUPER"
        (some "od550aer") false = .ok [("od550aer", some .valueError)] := by
  have h1 := run_superobs_vertcode_mismatch_behavior rcId exEnvVertMismatch
    "EMEP" "SUPER" "od550aer" "A" "B" "fa.nc" "fb.nc" obsSuper
    ⟨"A", "EMEP", "od550aer", "hourly"⟩ ⟨"B", "EMEP", "od550aer", "daily"⟩
    "Surface" "Column" "Surface" (by rfl) (by rfl) (by rfl) (by rfl)
    (by rfl) (by rfl) (by rfl) (by rfl) (by rfl) (by rfl) (by rfl)
    (Or.inl (by decide))
  have h2 := run_superobs_vertcode_mismatch_behavior rcId
    exEnvVertMismatchRaise "EMEP" "SUPER" "od550aer" "A" "B" "fa.nc"
    "fb.nc" obsSuper ⟨"A", "EMEP", "od550aer", "hourly"⟩
    ⟨"B", "EMEP", "od550aer", "daily"⟩ "Surface" "Column" "Surface"
    (by rfl) (by rfl) (by rfl) (by rfl) (by rfl) (by rfl) (by rfl)
    (by rfl) (by rfl) (by rfl) (by rfl) (Or.inl (by decide))
  exact ⟨h1.1, h2.2.1 (by rfl), h1.2.2 (by rfl)⟩

/-- C6: the map-file scan of the menu rebuild correctly OMITS the entry
whose model name is no longer configured (first conjunct), but
`update_menu` itself ALWAYS raises: `_sort_menu_entries` evaluates
`config.var_order_menu` and `config` is an unbound name in
experiment_setup.py, a NameError — so the rebuilt menu is never
written. -/
theorem update_menu_stale_model_pruned_but_raises :
    get_meta_from_map_files exMenuEnv = .ok [] ∧
      update_menu exMenuEnv = .error .nameError := by
  constructor
  · rfl
  · rfl

theorem pySplitCh_ne_nil (c : Char) (s : List Char) : pySplitCh c s ≠ [] := by
  cases s with
  | nil => simp [pySplitCh]
  | cons a t =>
    simp only [pySplitCh]
    split
    · simp
    · split <;> simp

theorem pySplitCh_exists (c : Char) (s : List Char) :
    ∃ p ps, pySplitCh c s = p :: ps := by
  cases hx : pySplitCh c s with
  | nil => exact absurd hx (pySplitCh_ne_nil c s)
  | cons p ps => exact ⟨p, ps, rfl⟩

theorem pySplitCh_append (c : Char) :
    ∀ x y, pySplitCh c (x ++ c :: y) = pySplitCh c x ++ pySplitCh c y := by
  intro x
  induction x with
  | nil => intro y; simp [pySplitCh]
  | cons a xs ih =>
    intro y
    by_cases hac : a = c
    · subst hac
      simp [pySplitCh, ih y]
    · obtain ⟨p, ps, hps⟩ := pySplitCh_exists c xs
      simp only [List.cons_append, pySplitCh, if_neg hac, List.append_eq]
      rw [ih y, hps]
      simp

theorem pySplitCh_no_sep (c : Char) :
    ∀ s, c ∉ s → pySplitCh c s = [s] := by
  intro s
  induction s with
  | nil => intro h2; rfl
  | cons a t ih =>
    intro h
    have h2 : ¬ (c = a ∨ c ∈ t) := by simpa [List.mem_cons] using h
    push_neg at h2
    have hac : ¬ a = c := fun he => h2.1 he.symm
    simp [pySplitCh, hac, ih h2.2]

theorem pyJoinCh_pySplitCh (c : Char) :
    ∀ s, pyJoinCh c (pySplitCh c s) = s := by
  intro s
  induction s with
  | nil => rfl
  | cons a t ih =>
    obtain ⟨p, ps, hps⟩ := pySplitCh_exists c t
    by_cases hac : a = c
    · subst hac
      rw [hps] at ih
      simp only [pySplitCh, if_pos rfl, hps, pyJoinCh]
      rw [ih]
      simp
    · rw [hps] at ih
      simp only [pySplitCh, if_neg hac, hps]
      cases ps with
      | nil =>
        simp only [pyJoinCh] at ih ⊢
        rw [ih]
      | cons q qs =>
        simp only [pyJoinCh] at ih ⊢
        rw [List.cons_append, ih]

theorem pyLastD_concat (l : List (List Char)) (v : List Char) :
    pyLastD (l ++ [v]) = v := by
  induction l with
  | nil => rfl
  | cons p t ih =>
    cases t with
    | nil => rfl
    | cons q t2 => exact ih

theorem hasPref_append_cases (d : Char) (y : List Char) :
    ∀ (x sep : List Char), hasPref sep (x ++ d :: y) = true →
      hasPref sep x = true ∨ d ∈ sep := by
  intro x
  induction x with
  | nil =>
    intro sep h
    cases sep with
    | nil => exact Or.inl rfl
    | cons e es =>
      right
      simp only [List.nil_append, hasPref, Bool.and_eq_true,
        decide_eq_true_eq] at h
      rw [h.1]
      exact List.mem_cons_self d es
  | cons a xs ih =>
    intro sep h
    cases sep with
    | nil => exact Or.inl rfl
    | cons e es =>
      simp only [List.cons_append, hasPref, Bool.and_eq_true,
        decide_eq_true_eq] at h
      obtain ⟨he, h2⟩ := h
      rcases ih es h2 with h3 | h3
      · left
        simp [hasPref, he, h3]
      · right
        exact List.mem_cons_of_mem _ h3

theorem hasSub_append (sep : List Char) (hne : sep ≠ []) (d : Char)
    (hd : d ∉ sep) :
    ∀ x y, hasSub sep x = false → hasSub sep y = false →
      hasSub sep (x ++ d :: y) = false := by
  intro x
  induction x with
  | nil =>
    intro y hx hy
    have hp : hasPref sep (d :: y) = false := by
      cases hps : hasPref sep (d :: y) with
      | false => rfl
      | true =>
        rcases hasPref_append_cases d y [] sep hps with h3 | h3
        · cases sep with
          | nil => exact absurd rfl hne
          | cons e es => simp [hasPref] at h3
        · exact absurd h3 hd
    simp [hasSub, hp, hy]
  | cons a xs ih =>
    intro y hx hy
    have hx2 : hasPref sep (a :: xs) = false ∧ hasSub sep xs = false := by
      cases hpa : hasPref sep (a :: xs) with
      | true => simp [hasSub, hpa] at hx
      | false =>
        refine ⟨rfl, ?_⟩
        simpa [hasSub, hpa] using hx
    have hpref : hasPref sep ((a :: xs) ++ d :: y) = false := by
      cases hps : hasPref sep ((a :: xs) ++ d :: y) with
      | false => rfl
      | true =>
        rcases hasPref_append_cases d y (a :: xs) sep hps with h3 | h3
        · rw [hx2.1] at h3
          exact Bool.noConfusion h3
        · exact absurd h3 hd
    have hrest := ih y hx2.2 hy
    simp only [List.cons_append] at hpref ⊢
    simp [hasSub, hpref, hrest]

theorem hasPref_jsonSep_concat (a : Char) (rest : List Char)
    (h : hasPref jsonSep ((a :: rest) ++ jsonSep) = true) :
    hasPref jsonSep (a :: rest) = true := by
  match rest with
  | [] =>
    simp only [jsonSep, List.cons_append, List.nil_append, hasPref,
      Bool.and_eq_true, decide_eq_true_eq] at h
    exact absurd h.2.1 (by decide)
  | [x] =>
    simp only [jsonSep, List.cons_append, List.nil_append, hasPref,
      Bool.and_eq_true, decide_eq_true_eq] at h
    exact absurd h.2.2.1 (by decide)
  | [x, y] =>
    simp only [jsonSep, List.cons_append, List.nil_append, hasPref,
      Bool.and_eq_true, decide_eq_true_eq] at h
    exact absurd h.2.2.2.1 (by decide)
  | [x, y, z] =>
    simp only [jsonSep, List.cons_append, List.nil_append, hasPref,
      Bool.and_eq_true, decide_eq_true_eq] at h
    exact absurd h.2.2.2.2.1 (by decide)
  | x :: y :: z :: w :: rest2 =>
    simp only [jsonSep, List.cons_append, hasPref, Bool.and_eq_true,
      decide_eq_true_eq] at h ⊢
    exact ⟨h.1, h.2.1, h.2.2.1, h.2.2.2.1, h.2.2.2.2.1, trivial⟩

theorem beforeSub_jsonSep_concat :
    ∀ stem, hasSub jsonSep stem = false →
      beforeSub jsonSep (stem ++ jsonSep) = stem := by
  intro stem
  induction stem with
  | nil => intro _; rfl
  | cons a rest ih =>
    intro h
    have h1 : hasPref jsonSep (a :: rest) = false ∧
        hasSub jsonSep rest = false := by
      cases hpa : hasPref jsonSep (a :: rest) with
      | true => simp [hasSub, hpa] at h
      | false =>
        refine ⟨rfl, ?_⟩
        simpa [hasSub, hpa] using h
    have hp : hasPref jsonSep ((a :: rest) ++ jsonSep) = false := by
      cases hps : hasPref jsonSep ((a :: rest) ++ jsonSep) with
      | false => rfl
      | true =>
        have := hasPref_jsonSep_concat a rest hps
        rw [h1.1] at this
        exact Bool.noConfusion this
    simp only [List.cons_append] at hp
    show beforeSub jsonSep (a :: (rest ++ jsonSep)) = a :: rest
    simp only [beforeSub, hp, Bool.false_eq_true, if_false]
    rw [ih h1.2]

theorem basenameCh_no_slash (s : List Char) (h : '/' ∉ s) :
    basenameCh s = s := by
  unfold basenameCh
  rw [pySplitCh_no_sep _ _ h]
  rfl

/-- C7 (amended): round-trip of the map filename encoding holds for
every 5-tuple whose parts are free of '_' (plus '-' for the two variable
names) — as the claim states — AND additionally free of '/' and of the
substring ".json", which the claim omits (see the counterexample). -/
theorem info_from_map_file_roundtrip
    (oname ovar vc mname mvar : List Char)
    (hu1 : '_' ∉ oname) (hu2 : '_' ∉ ovar) (hu3 : '_' ∉ vc)
    (hu4 : '_' ∉ mname) (hu5 : '_' ∉ mvar)
    (hh1 : '-' ∉ ovar) (hh2 : '-' ∉ mvar)
    (hs1 : '/' ∉ oname) (hs2 : '/' ∉ ovar) (hs3 : '/' ∉ vc)
    (hs4 : '/' ∉ mname) (hs5 : '/' ∉ mvar)
    (hj1 : hasSub jsonSep oname = false) (hj2 : hasSub jsonSep ovar = false)
    (hj3 : hasSub jsonSep vc = false) (hj4 : hasSub jsonSep mname = false)
    (hj5 : hasSub jsonSep mvar = false) :
    info_from_map_file (map_file_name oname ovar vc mname mvar) =
      .ok (oname, ovar, vc, mname, mvar) := by
  have hslash : '/' ∉ map_file_name oname ovar vc mname mvar := by
    simp [map_file_name, jsonSep, hs1, hs2, hs3, hs4, hs5]
  have hname : map_file_name oname ovar vc mname mvar =
      (oname ++ '-' :: (ovar ++ '_' :: (vc ++ '_' :: (mname ++ '-' :: mvar))))
        ++ jsonSep := by
    simp [map_file_name, List.append_assoc]
  have hsub : hasSub jsonSep
      (oname ++ '-' :: (ovar ++ '_' :: (vc ++ '_' :: (mname ++ '-' :: mvar))))
        = false := by
    have hy4 := hasSub_append jsonSep (by decide) '-' (by decide) mname mvar
      hj4 hj5
    have hy3 := hasSub_append jsonSep (by decide) '_' (by decide) vc _
      hj3 hy4
    have hy2 := hasSub_append jsonSep (by decide) '_' (by decide) ovar _
      hj2 hy3
    exact hasSub_append jsonSep (by decide) '-' (by decide) oname _ hj1 hy2
  have hobs_u : '_' ∉ oname ++ '-' :: ovar := by
    simp only [List.mem_append, List.mem_cons, not_or]
    exact ⟨hu1, by decide, hu2⟩
  have hmod_u : '_' ∉ mname ++ '-' :: mvar := by
    simp only [List.mem_append, List.mem_cons, not_or]
    exact ⟨hu4, by decide, hu5⟩
  have hrearr :
      (oname ++ '-' :: (ovar ++ '_' :: (vc ++ '_' :: (mname ++ '-' :: mvar))))
        = (oname ++ '-' :: ovar) ++ '_' :: (vc ++ '_' :: (mname ++ '-' :: mvar)) := by
    simp [List.append_assoc]
  have hmspl : pySplitCh '-' (mname ++ '-' :: mvar) =
      pySplitCh '-' mname ++ [mvar] := by
    rw [pySplitCh_append, pySplitCh_no_sep _ _ hh2]
  have hospl : pySplitCh '-' (oname ++ '-' :: ovar) =
      pySplitCh '-' oname ++ [ovar] := by
    rw [pySplitCh_append, pySplitCh_no_sep _ _ hh1]
  unfold info_from_map_file
  rw [hname]
  rw [basenameCh_no_slash _ (by rw [← hname]; exact hslash)]
  rw [beforeSub_jsonSep_concat _ hsub]
  rw [hrearr, pySplitCh_append, pySplitCh_no_sep _ _ hobs_u,
    pySplitCh_append, pySplitCh_no_sep _ _ hu3,
    pySplitCh_no_sep _ _ hmod_u]
  simp only [List.singleton_append, List.cons_append, List.nil_append]
  rw [hmspl, hospl, pyLastD_concat, pyLastD_concat,
    List.dropLast_concat, List.dropLast_concat,
    pyJoinCh_pySplitCh, pyJoinCh_pySplitCh]

/-- C7 (counterexample to the claim as stated): the vertical code
".json" contains no underscore, so the claim's hypotheses allow it, yet
parsing the encoded filename fails with `FileConventionError` (the
`.split('.json')[0]` step truncates at the first ".json" occurrence)
instead of recovering the 5-tuple. -/
theorem info_from_map_file_not_lossless :
    ¬ ('_' ∈ ".json".data) ∧
      info_from_map_file
        (map_file_name "EEA".data "concno2".data ".json".data "EMEP".data
          "concno2".data) = .error .fileConventionError := by
  exact ⟨by decide, by rfl⟩

/-- Witness for C7 at the two tuples the claim names:
("EEA", "concno2", "Surface", "EMEP", "concno2") and a remapped model
variable (obs_var "od550aer", model_var "od550csaer"). -/
theorem info_from_map_file_roundtrip_witness :
    info_from_map_file
        (map_file_name "EEA".data "concno2".data "Surface".data "EMEP".data
          "concno2".data) =
      .ok ("EEA".data, "concno2".data, "Surface".data, "EMEP".data,
        "concno2".data) ∧
      info_from_map_file
          (map_file_name "AERONET-Sun".data "od550aer".data "Column".data
            "ECMWF-IFS".data "od550csaer".data) =
        .ok ("AERONET-Sun".data, "od550aer".data, "Column".data,
          "ECMWF-IFS".data, "od550csaer".data) := by
  constructor
  · exact info_from_map_file_roundtrip _ _ _ _ _ (by decide) (by decide)
      (by decide) (by decide) (by decide) (by decide) (by decide)
      (by decide) (by decide) (by decide) (by decide) (by decide)
      (by decide) (by decide) (by decide) (by decide) (by decide)
  · exact info_from_map_file_roundtrip _ _ _ _ _ (by decide) (by decide)
      (by decide) (by decide) (by decide) (by decide) (by decide)
      (by decide) (by decide) (by decide) (by decide) (by decide)
      (by decide) (by decide) (by decide) (by decide) (by decide)

end PyA
